import Mathlib

/-!
Verification development for the Autobackup SSH orchestration core.

The Python source under `src/ssh/` is embedded shallowly:

* `src/ssh/formatter.py` (`CommandFormatter`) becomes pure functions over
  `String` / `List Char`.  The regex `rf"{delim}:(\d+)"` used by
  `extract_exit_code` is modelled by a literal leftmost-match search
  (`extractExitCodeList`), which is exact for the delimiters the program
  uses (nonempty words over `[A-Za-z0-9_]`, captured by `validDelimiter`).
* `src/ssh/connection.py` (`SSHConnection._run_raw`) becomes a fuel-indexed
  interpretation of its polling loop over an environment (`RunEnv`) that
  supplies the bytes each `recv`/`flush` call would have produced; the
  float timeout becomes the fuel bound on loop iterations.
* `src/ssh/session.py` and `src/ssh/group.py` become explicit state-passing
  functions over a `SessionState` (channel flag, rebindable target data, and
  the trace of everything sent over the gateway channel) together with a
  `World` oracle giving the `(output, exit_code)` result — or the raised
  error — of each successive gateway-level primitive call, exactly the data
  the remote side determines in the real program.

Python exceptions are modelled by `Except SSHError`; an exception
propagating out of a Python method is an `Except.error` value, and each
`try/except` clause becomes a `match` on the corresponding constructors.
-/

/-! ## Basic list helpers -/

/-- Strips `d` from the front of `l`: `some rest` iff `l = d ++ rest`. -/
def stripPrefixChars : List Char → List Char → Option (List Char)
  | [], l => some l
  | _ :: _, [] => none
  | d :: ds, c :: cs => if c = d then stripPrefixChars ds cs else none

/-- Substring containment on `List Char` (Python's `needle in hay`). -/
def containsSub (needle : List Char) : List Char → Bool
  | [] => (stripPrefixChars needle []).isSome
  | c :: cs => (stripPrefixChars needle (c :: cs)).isSome || containsSub needle cs

/-- Substring containment on `String` (Python's `in` operator on str). -/
def containsSubStr (needle hay : String) : Bool :=
  containsSub needle.toList hay.toList

/-- Value of a digit string, as `int()` computes it on the regex capture. -/
def digitsToNat (ds : List Char) : Nat :=
  ds.foldl (fun a c => a * 10 + (c.toNat - 48)) 0

/-! ## CommandFormatter (src/ssh/formatter.py) -/

/-- Error taxonomy of `src/ssh/exceptions.py` plus the builtin Python
exceptions the code raises (`RuntimeError`, `FileNotFoundError`,
`NotImplementedError`). -/
inductive SSHError where
  | promptTimeoutError (msg : String)
  | commandTimeoutError (msg : String)
  | gatewaySSHConnectionError (msg : String)
  | targetSSHConnectionError (msg : String)
  | exitCodeNotFoundError
  | gatewaySessionInactiveError (msg : String)
  | targetSessionInactiveError (msg : String)
  | invalidTargetCommandError (msg : String)
  | runtimeError (msg : String)
  | fileNotFoundError (msg : String)
  | notImplementedError (msg : String)
deriving DecidableEq, Repr

/-- `delim:(\d+)` matching at the head of `l`: the delimiter, a colon, and a
nonempty maximal digit run (the greedy capture group). -/
def markerCode (delim : List Char) (l : List Char) : Option Nat :=
  match stripPrefixChars delim l with
  | none => none
  | some rest =>
    match rest with
    | [] => none
    | c :: r =>
      if c = ':' then
        let ds := r.takeWhile Char.isDigit
        if ds.isEmpty then none else some (digitsToNat ds)
      else none

/-- Leftmost search for `delim:(\d+)` (Python's `re.search`), returning the
captured code and the output truncated at the match start
(`output[:match.start()]`), i.e. exactly what `extract_exit_code` computes. -/
def extractExitCodeList (delim : List Char) : List Char → Option (Nat × List Char)
  | [] =>
    match markerCode delim [] with
    | some c => some (c, [])
    | none => none
  | x :: xs =>
    match markerCode delim (x :: xs) with
    | some c => some (c, [])
    | none =>
      match extractExitCodeList delim xs with
      | some (c, clean) => some (c, x :: clean)
      | none => none

/-- Does `delim:(\d+)` match anywhere in `l`? -/
def hasMarker (delim : List Char) : List Char → Bool
  | [] => (markerCode delim []).isSome
  | x :: xs => (markerCode delim (x :: xs)).isSome || hasMarker delim xs

/-- `hasMarker` on strings. -/
def hasMarkerStr (delim s : String) : Bool :=
  hasMarker delim.toList s.toList

/-- Delimiters actually used by the program are nonempty words over
`[A-Za-z0-9_]`; for those the interpolated regex `rf"{delim}:(\d+)"`
matches the delimiter literally, which is what the model assumes. -/
def validDelimiter (d : String) : Bool :=
  !d.isEmpty && d.toList.all (fun c => c.isAlphanum || c = '_')

/-- Python's `str.strip()`: drop whitespace from both ends. -/
def pyStrip (s : String) : String :=
  String.mk (((s.toList.dropWhile Char.isWhitespace).reverse.dropWhile
    Char.isWhitespace).reverse)

/-- `CommandFormatter.regular_command`. -/
def regular_command (command : String) (exitcode_delimiter : String)
    (run_as_root : Bool := false) : String :=
  let base_cmd := pyStrip command
  let full_cmd := base_cmd ++ "; echo " ++ exitcode_delimiter ++ ":$?"
  if run_as_root then "sudo su root -c " ++ full_cmd else full_cmd

/-- `CommandFormatter.bash_script_from_string`.  `shlex.quote` is modelled
abstractly by a quoting function parameter in proofs that need it; here the
arguments are joined the way the source does after quoting, with
`shlexQuote` the embedding of `shlex.quote` for argument lists. -/
def shlexQuote (arg : String) : String :=
  if arg.toList.all (fun c =>
      c.isAlphanum || c = '_' || c = '-' || c = '.' || c = '/' || c = '@') &&
      !arg.isEmpty then
    arg
  else
    "'" ++ String.join (arg.toList.map (fun c =>
      if c = '\'' then "'\"'\"'" else String.mk [c])) ++ "'"

/-- `CommandFormatter.bash_script_from_string`. -/
def bash_script_from_string (script_content : String)
    (exitcode_delimiter : String) (args : List String)
    (run_as_root : Bool := false) : String :=
  let quoted := args.map shlexQuote
  let joined_args := String.intercalate " " quoted
  let cmd := "'bash -s " ++ joined_args ++ "' << \"EOF\" ; echo " ++
    exitcode_delimiter ++ ":$? \n" ++ script_content ++ "\n\"EOF\"\n"
  if run_as_root then "sudo su root -c " ++ cmd else cmd

/-- `CommandFormatter.extract_exit_code`: leftmost `delim:(\d+)` search;
raises `ExitCodeNotFoundError` when the marker never occurs. -/
def extract_exit_code (output : String) (exitcode_delimiter : String) :
    Except SSHError (Nat × String) :=
  match extractExitCodeList exitcode_delimiter.toList output.toList with
  | none => .error .exitCodeNotFoundError
  | some (c, clean) => .ok (c, String.mk clean)

/-- `CommandFormatter.set_shell_env_variable_raw_command`. -/
def set_shell_env_variable_raw_command (key value : String) : String :=
  "setenv " ++ key ++ " " ++ value

/-! ## InternalExitCode (src/ssh/base.py) -/

/-- `InternalExitCode.UNSET`: initial state before command run. -/
def InternalExitCode.UNSET : Int := -9999

/-- `InternalExitCode.EXIT_CODE_NOT_FOUND`: delimiter not found in output. -/
def InternalExitCode.EXIT_CODE_NOT_FOUND : Int := -1

/-- `InternalExitCode.BREAK_TRIGGERED`: break condition triggered. -/
def InternalExitCode.BREAK_TRIGGERED : Int := -2

/-! ## Interactive shell connection: `SSHConnection._run_raw`
(src/ssh/connection.py, lines 183-287)

The loop is interpreted against a `RunEnv` describing what the remote side
makes available: `recvs i` is the chunk `channel.recv` returns at loop
iteration `i` (`none` = `recv_ready()` false), and `flushes j` is the data
the `j`-th call to `flush()` returns.  The float timeout becomes `fuel`,
the number of loop iterations allowed before `CommandTimeoutError`. -/

/-- A compiled `Responder`: its compiled regex is modelled as the matcher
function it denotes, plus the response text that is sent on a match. -/
structure MResponder where
  regexMatches : String → Bool
  response : String

/-- The remote side's behaviour during one `_run_raw` call. -/
structure RunEnv where
  recvs : Nat → Option String
  flushes : Nat → Option String

/-- The `for responder in responders:` pass of one loop iteration: each
matching responder sends its response and flushes; a nonempty flush result
is appended as a fresh chunk (`output_chunks.append(out)`), so later
responders (and the exit/break tests) see it as the new last chunk.
State: flush counter `j`, earlier chunks `done`, last chunk `cur`. -/
def respondersPass (env : RunEnv) : List MResponder → Nat → List String → String →
    Nat × List String × String
  | [], j, done, cur => (j, done, cur)
  | r :: rs, j, done, cur =>
    if r.regexMatches cur then
      match env.flushes j with
      | some out => respondersPass env rs (j + 1) (done ++ [cur]) out
      | none => respondersPass env rs (j + 1) done cur
    else
      respondersPass env rs j done cur

/-- The accumulation phase of one loop iteration: the `recv_ready` read
appending to the last chunk, then the responder pass. -/
def iterAccum (env : RunEnv) (responders : List MResponder) (i j : Nat)
    (done : List String) (cur : String) : Nat × List String × String :=
  let cur1 := match env.recvs i with
    | some chunk => cur ++ chunk
    | none => cur
  respondersPass env responders j done cur1

/-- How the `while True` loop of `_run_raw` was exited. -/
inductive LoopExit where
  | markerFound
  | breakTriggered
deriving DecidableEq, Repr

/-- Final loop state: chunks, last chunk, flush counter, and exit kind. -/
structure LoopOut where
  done : List String
  cur : String
  flushIdx : Nat
  kind : LoopExit
deriving DecidableEq, Repr

/-- `some pattern` matches `cur`?  (`break_on_pattern and
break_on_pattern.search(...)`). -/
def breakMatches : Option (String → Bool) → String → Bool
  | none, _ => false
  | some p, s => p s

/-- The `while True` loop of `_run_raw`.  Each iteration: timeout check
(fuel), recv, responder pass, exit-marker test on the last chunk, then the
optional early-break test on the last chunk. -/
def runLoop (env : RunEnv) (responders : List MResponder) (delim : String)
    (breakPat : Option (String → Bool)) (cmd : String) :
    Nat → Nat → Nat → List String → String → Except SSHError LoopOut
  | 0, _, _, _, _ =>
    .error (.commandTimeoutError
      ("Command <" ++ cmd ++ "> timed out." ++ "expected exitcode: " ++ delim))
  | fuel + 1, i, j, done, cur =>
    let acc := iterAccum env responders i j done cur
    if hasMarkerStr delim acc.2.2 then
      .ok ⟨acc.2.1, acc.2.2, acc.1, .markerFound⟩
    else if breakMatches breakPat acc.2.2 then
      .ok ⟨acc.2.1, acc.2.2, acc.1, .breakTriggered⟩
    else
      runLoop env responders delim breakPat cmd fuel (i + 1) acc.1 acc.2.1 acc.2.2

/-- The code after the loop: final flush appended as one more chunk, join,
then — only when the loop exited through the exit-marker test (exit code
still `UNSET`) — extraction of the exit code, with `ExitCodeNotFoundError`
mapped to the `EXIT_CODE_NOT_FOUND` sentinel. -/
def joinedOutput (env : RunEnv) (o : LoopOut) : String :=
  String.join (o.done ++ [o.cur] ++ (match env.flushes o.flushIdx with
    | some out => [out]
    | none => []))

/-- Builds the final `(full_output, exit_code)` from the loop result. -/
def runFinish (env : RunEnv) (delim : String) (o : LoopOut) :
    Except SSHError (String × Int) :=
  let full_output := joinedOutput env o
  match o.kind with
  | .breakTriggered => .ok (full_output, InternalExitCode.BREAK_TRIGGERED)
  | .markerFound =>
    match extract_exit_code full_output delim with
    | .ok (c, clean) => .ok (clean, (c : Int))
    | .error _ => .ok (full_output, InternalExitCode.EXIT_CODE_NOT_FOUND)

/-- `SSHConnection._run_raw`: channel guard, send of the formatted command,
initial discarded flush (flush index 0; the loop's flush counter therefore
starts at 1), loop starting from `output_chunks = [""]`, then `runFinish`. -/
def run_raw (env : RunEnv) (formatted_command : String)
    (exitcode_delimiter : String) (fuel : Nat)
    (responders : List MResponder) (breakPat : Option (String → Bool))
    (channelOpen : Bool) : Except SSHError (String × Int) :=
  if channelOpen then
    match runLoop env responders exitcode_delimiter breakPat formatted_command
        fuel 0 1 [] "" with
    | .error e => .error e
    | .ok o => runFinish env exitcode_delimiter o
  else
    .error (.runtimeError "SSH channel is not active or already closed.")

/-- `SSHConnection.run`: formats with `regular_command` then delegates. -/
def conn_run (env : RunEnv) (command : String) (exitcode_delimiter : String)
    (fuel : Nat) (responders : List MResponder)
    (breakPat : Option (String → Bool)) (channelOpen : Bool) :
    Except SSHError (String × Int) :=
  run_raw env (regular_command command exitcode_delimiter false)
    exitcode_delimiter fuel responders breakPat channelOpen

/-- `SSHConnection.run_as_root`: root formatting, sudo responder prepended. -/
def conn_run_as_root (env : RunEnv) (command password : String)
    (exitcode_delimiter : String) (fuel : Nat) (responders : List MResponder)
    (breakPat : Option (String → Bool)) (channelOpen : Bool) :
    Except SSHError (String × Int) :=
  run_raw env (regular_command command exitcode_delimiter true)
    exitcode_delimiter fuel
    (⟨fun s => containsSubStr "password:" s, password ++ "\n"⟩ :: responders)
    breakPat channelOpen

/-! ## Recursive session (src/ssh/session.py)

Above `_run_raw` the behaviour of the remote side is abstracted into a
`World` oracle: the `k`-th gateway-level primitive (a `connect` or a
formatted command sent through `_run_raw`) yields `outcome k` — either the
`(output, exit_code)` pair the call returns or the error it raises.  The
`SessionState` keeps the channel flag, the rebindable `target_data` field,
and the ordered trace of every primitive actually issued, so that
"command never sent" claims are statements about the trace. -/

/-- `SSHConnectionData` (src/ssh/base.py); the port and `internal_host` do
not influence the session layer's logic and are omitted. -/
structure ConnData where
  host : String
  user : String
  password : String
deriving DecidableEq, Repr

/-- One primitive issued on the gateway connection, as recorded in the
trace.  `run` records the formatted command actually sent by `_run_raw`,
its exit-code delimiter, and the `break_on` pattern if any. -/
inductive GwEvent where
  | connect
  | run (formatted_command : String) (delimiter : String) (break_on : Option String)
  | close
deriving DecidableEq, Repr

/-- The mutable state of a `RecursiveSSHSession` together with the trace of
gateway primitives issued so far. -/
structure SessionState where
  channelOpen : Bool
  targetData : ConnData
  events : List GwEvent
deriving DecidableEq, Repr

/-- The remote side: result of the `k`-th gateway primitive (counting every
trace event).  For a `connect` event, `.ok` means the transport-level
connect succeeded and `.error` is the exception it raised; `close` consumes
no outcome. -/
structure World where
  outcome : Nat → Except SSHError (String × Int)
  files : String → Option String

/-- Sending one already-formatted command through `_run_raw` on the gateway
channel: the channel guard (`ensure_channel_ready`), then the command goes
on the wire (recorded in the trace) and the oracle decides the result. -/
def gwRunPrim (w : World) (s : SessionState) (formatted : String)
    (delim : String) (break_on : Option String) :
    Except SSHError (String × Int) × SessionState :=
  if s.channelOpen then
    (w.outcome s.events.length,
      { s with events := s.events ++ [GwEvent.run formatted delim break_on] })
  else
    (.error (.runtimeError "SSH channel is not active or already closed."), s)

/-- `SSHConnection.run` as used by the session layer: formats the raw
command with `regular_command` and sends it. -/
def gw_run (w : World) (s : SessionState) (command : String) (delim : String)
    (break_on : Option String) : Except SSHError (String × Int) × SessionState :=
  gwRunPrim w s (regular_command command delim false) delim break_on

/-- `SSHConnection.run_as_root` as used by the session layer: root
formatting (the sudo responder acts below the oracle boundary). -/
def gw_run_as_root (w : World) (s : SessionState) (command : String)
    (delim : String) (break_on : Option String) :
    Except SSHError (String × Int) × SessionState :=
  gwRunPrim w s (regular_command command delim true) delim break_on

/-- `SSHConnection.run_bash_script_as_root` as used by the session layer:
heredoc formatting; with `from_file` the local file is read first and
`FileNotFoundError` is raised — before anything is sent — if it is absent. -/
def gw_run_bash_script_as_root (w : World) (s : SessionState) (script : String)
    (args : List String) (from_file : Bool) (delim : String)
    (break_on : Option String) : Except SSHError (String × Int) × SessionState :=
  if from_file then
    match w.files script with
    | none => (.error (.fileNotFoundError ("Script not found: " ++ script)), s)
    | some content =>
      gwRunPrim w s (bash_script_from_string content delim args true) delim break_on
  else
    gwRunPrim w s (bash_script_from_string script delim args true) delim break_on

/-- `SSHConnection.connect` (transport connect + shell + prompt wait) as
seen by the session layer: on success the channel becomes open. -/
def gwConnect (w : World) (s : SessionState) :
    Except SSHError Unit × SessionState :=
  let res := w.outcome s.events.length
  let s1 := { s with events := s.events ++ [GwEvent.connect] }
  match res with
  | .ok _ => (.ok (), { s1 with channelOpen := true })
  | .error e => (.error e, s1)

/-- `SSHConnection.close`: releases channel and transport; never raises. -/
def gwClose (s : SessionState) : Except SSHError Unit × SessionState :=
  (.ok (), { s with channelOpen := false, events := s.events ++ [GwEvent.close] })

/-- `RecursiveSSHSession.SSH_TARGET_CONNECTION_EXITCODE`. -/
def SSH_TARGET_CONNECTION_EXITCODE : String := "__SSH_TARGET_CONNECTION_EXITCODE"

/-- `RecursiveSSHSession.TARGET_SESSION_EXITCODE_DELIMITER`. -/
def TARGET_SESSION_EXITCODE_DELIMITER : String := "__TARGET_EXITCODE"

/-- `RecursiveSSHSession.TARGET_SESSION_VAR`. -/
def TARGET_SESSION_VAR : String := "__TARGET_SESSION"

/-- `RecursiveSSHSession.GATEWAY_SESSION_VAR`. -/
def GATEWAY_SESSION_VAR : String := "__GATEWAY_SESSION"

/-- `RecursiveSSHSession.SESSION_VAR_VALUE`. -/
def SESSION_VAR_VALUE : String := "__OK__"

/-- The message `verify_target_session_token` raises with. -/
def TARGET_INACTIVE_MSG : String :=
  "Target SSH session shell seems inactive - unable to verify connection variable."

/-- The message `verify_gateway_session_token` raises with. -/
def GATEWAY_INACTIVE_MSG : String :=
  "Gateway SSH session shell unable to verify connection variable."

/-- The trace event of a token probe for `var`: the formatted
`echo exists: $?var` command sent through `SSHConnection.run`. -/
def probeEvent (var : String) : GwEvent :=
  GwEvent.run (regular_command ("echo exists: $?" ++ var) "__EXITCODE" false)
    "__EXITCODE" none

/-- The state after issuing a token probe for `var`. -/
def probeState (s : SessionState) (var : String) : SessionState :=
  { s with events := s.events ++ [probeEvent var] }

/-- `RecursiveSSHSession._verify_env_variable`: runs
`echo exists: $?{var_name}` through the gateway (default `__EXITCODE`
delimiter of `SSHConnection.run`) and raises `RuntimeError(error_msg)` when
the output contains `exists: 0` (csh: variable unset). -/
def verify_env_variable (w : World) (s : SessionState) (var_name : String)
    (hide : Bool) (error_msg : String) : Except SSHError Unit × SessionState :=
  let cmd := "echo exists: $?" ++ var_name
  match gw_run w s cmd "__EXITCODE" none with
  | (.error e, s1) => (.error e, s1)
  | (.ok (output, _), s1) =>
    if containsSubStr "exists: 0" output then
      (.error (.runtimeError error_msg), s1)
    else
      (.ok (), s1)

/-- `RecursiveSSHSession.verify_target_session_token`: converts the
`RuntimeError` (and only that) into `TargetSessionInactiveError`. -/
def verify_target_session_token (w : World) (s : SessionState) (hide : Bool) :
    Except SSHError Unit × SessionState :=
  match verify_env_variable w s TARGET_SESSION_VAR hide TARGET_INACTIVE_MSG with
  | (.error (.runtimeError m), s1) => (.error (.targetSessionInactiveError m), s1)
  | r => r

/-- `RecursiveSSHSession.verify_gateway_session_token`: converts the
`RuntimeError` (and only that) into `GatewaySessionInactiveError`. -/
def verify_gateway_session_token (w : World) (s : SessionState) (hide : Bool) :
    Except SSHError Unit × SessionState :=
  match verify_env_variable w s GATEWAY_SESSION_VAR hide GATEWAY_INACTIVE_MSG with
  | (.error (.runtimeError m), s1) => (.error (.gatewaySessionInactiveError m), s1)
  | r => r

/-- `RecursiveSSHSession.establish_gateway_connection`: skipped entirely
when the channel is already open; otherwise transport connect (any raised
exception wrapped into `GatewaySSHConnectionError`), then the gateway
token is set (errors of that run propagate unwrapped) and verified. -/
def establish_gateway_connection (w : World) (s : SessionState)
    (shell_prompt_pattern : String) (verbose : Bool) :
    Except SSHError Unit × SessionState :=
  if s.channelOpen then
    (.ok (), s)
  else
    match gwConnect w s with
    | (.error _, s1) =>
      (.error (.gatewaySSHConnectionError
        "Error occurred while establishing gateway connection"), s1)
    | (.ok _, s1) =>
      let cmd := set_shell_env_variable_raw_command GATEWAY_SESSION_VAR SESSION_VAR_VALUE
      match gw_run w s1 cmd "__EXITCODE" none with
      | (.error e, s2) => (.error e, s2)
      | (.ok _, s2) => verify_gateway_session_token w s2 (!verbose)

/-- The error message `establish_target_host_connection` attaches when the
nested `ssh` run does not end through the break pattern. -/
def targetConnectFailMsg (exit_code : Int) (output : String) : String :=
  "Failed to connect to target host - SSH exited or did not reach prompt.\n" ++
  "Exit code: " ++ toString exit_code ++ "\n" ++ "Output:\n" ++ output

/-- `RecursiveSSHSession.establish_target_host_connection`.  Note the
source's `except RuntimeError` around `verify_gateway_session_token` (the
first match arm below): `verify_gateway_session_token` never lets a
`RuntimeError` out — it re-raises `GatewaySessionInactiveError`, which is
not a `RuntimeError` — so that arm is dead and verification failures
propagate as `GatewaySessionInactiveError`. -/
def establish_target_host_connection (w : World) (s : SessionState)
    (shell_prompt_pattern : String) (verbose : Bool) :
    Except SSHError Unit × SessionState :=
  match verify_gateway_session_token w s (!verbose) with
  | (.error (.runtimeError _), s1) =>
    (.error (.targetSSHConnectionError
      "SSH connection to the target host should only be made from the gateway session"), s1)
  | (.error e, s1) => (.error e, s1)
  | (.ok _, s1) =>
    let cmd := "ssh " ++ s.targetData.user ++ "@" ++ s.targetData.host
    match gw_run w s1 cmd SSH_TARGET_CONNECTION_EXITCODE (some shell_prompt_pattern) with
    | (.error e, s2) => (.error e, s2)
    | (.ok (output, exit_code), s2) =>
      if exit_code ≠ InternalExitCode.BREAK_TRIGGERED then
        (.error (.targetSSHConnectionError (targetConnectFailMsg exit_code output)), s2)
      else
        let cmd2 := set_shell_env_variable_raw_command TARGET_SESSION_VAR SESSION_VAR_VALUE
        match gw_run w s2 cmd2 TARGET_SESSION_EXITCODE_DELIMITER none with
        | (.error (.commandTimeoutError _), s3) =>
          (.error (.targetSSHConnectionError
            "Erro occured while setting the shell varible"), s3)
        | (.error (.promptTimeoutError _), s3) =>
          (.error (.targetSSHConnectionError
            "Erro occured while setting the shell varible"), s3)
        | (.error e, s3) => (.error e, s3)
        | (.ok _, s3) =>
          match verify_target_session_token w s3 (!verbose) with
          | (.error (.targetSessionInactiveError _), s4) =>
            (.error (.targetSSHConnectionError
              "Target shell conection varible could NOT be verify after establishign the target connection"), s4)
          | r => r

/-- `RecursiveSSHSession.connect`: gateway hop then target hop. -/
def session_connect (w : World) (s : SessionState)
    (shell_gateway_prompt_pattern shell_target_prompt_pattern : String)
    (verbose : Bool) : Except SSHError Unit × SessionState :=
  match establish_gateway_connection w s shell_gateway_prompt_pattern verbose with
  | (.error e, s1) => (.error e, s1)
  | (.ok _, s1) =>
    establish_target_host_connection w s1 shell_target_prompt_pattern verbose

/-- `RecursiveSSHSession.run_at_target`: target-token verification, then
delegation to the gateway connection's `run` with the fixed target-scoped
delimiter. -/
def run_at_target (w : World) (s : SessionState) (command : String)
    (hide : Bool) (break_on : Option String) :
    Except SSHError (String × Int) × SessionState :=
  match verify_target_session_token w s hide with
  | (.error e, s1) => (.error e, s1)
  | (.ok _, s1) => gw_run w s1 command TARGET_SESSION_EXITCODE_DELIMITER break_on

/-- `RecursiveSSHSession.run_as_root_at_target`. -/
def run_as_root_at_target (w : World) (s : SessionState)
    (command password : String) (hide : Bool) (break_on : Option String) :
    Except SSHError (String × Int) × SessionState :=
  match verify_target_session_token w s hide with
  | (.error e, s1) => (.error e, s1)
  | (.ok _, s1) =>
    gw_run_as_root w s1 command TARGET_SESSION_EXITCODE_DELIMITER break_on

/-- `RecursiveSSHSession.run_bash_script_at_target_as_root`. -/
def run_bash_script_at_target_as_root (w : World) (s : SessionState)
    (script password : String) (args : List String) (from_file : Bool)
    (hide : Bool) (break_on : Option String) :
    Except SSHError (String × Int) × SessionState :=
  match verify_target_session_token w s hide with
  | (.error e, s1) => (.error e, s1)
  | (.ok _, s1) =>
    gw_run_bash_script_as_root w s1 script args from_file
      TARGET_SESSION_EXITCODE_DELIMITER break_on

/-- `RecursiveSSHSession.exit_target_session`: best-effort `exit` at the
target (`TargetSessionInactiveError` swallowed, any other error
propagating without the gateway re-check), then gateway token re-check. -/
def exit_target_session (w : World) (s : SessionState) (hide : Bool) :
    Except SSHError Unit × SessionState :=
  match run_at_target w s "exit" hide none with
  | (.error (.targetSessionInactiveError _), s1) =>
    verify_gateway_session_token w s1 hide
  | (.error e, s1) => (.error e, s1)
  | (.ok _, s1) => verify_gateway_session_token w s1 hide

/-- `RecursiveSSHSession.close`: exit the target hop (errors propagate,
skipping the close), then close the gateway connection. -/
def session_close (w : World) (s : SessionState) :
    Except SSHError Unit × SessionState :=
  match exit_target_session w s true with
  | (.error e, s1) => (.error e, s1)
  | (.ok _, s1) => gwClose s1

/-! ## Serial group runner (src/ssh/group.py) -/

/-- A `TargetCommand` / `TargetBashScript` / foreign object in the command
list (`isinstance` dispatch in `run_target`).  The `responders` and float
`timeout` fields act below the oracle boundary and are omitted. -/
inductive TargetItem where
  | cmd (command : String) (hide_output : Bool) (break_on : Option String)
    (run_as_root : Bool)
  | script (script : String) (args : List String) (from_file : Bool)
    (hide_output : Bool) (break_on : Option String) (run_as_root : Bool)
  | invalid (description : String)
deriving DecidableEq, Repr

/-- `TargetExecutionResult` (src/ssh/commands.py). -/
structure TargetExecutionResult where
  success : Bool
  outputs : List (String × Int)
  error : Option SSHError
deriving DecidableEq, Repr

/-- Configuration fields of `SerialRecursiveSSHGroup` (the per-batch
prompt patterns, gateway data and target list). -/
structure SerialRecursiveSSHGroup where
  gateway_data : ConnData
  targets : List ConnData
  shell_gateway_prompt_pattern : String
  shell_target_prompt_pattern : String
deriving Repr

/-- `SerialRecursiveSSHGroup.connect`: rebinds `session.target_data` to the
chosen target, then runs the two-hop `session.connect`. -/
def group_connect (g : SerialRecursiveSSHGroup) (w : World) (s : SessionState)
    (target : ConnData) (hide : Bool) : Except SSHError Unit × SessionState :=
  session_connect w { s with targetData := target }
    g.shell_gateway_prompt_pattern g.shell_target_prompt_pattern (!hide)

/-- `SerialRecursiveSSHGroup._run_on_target` /
`_run_bash_script_on_target`: dispatch a single item to the session,
root or not; a script not marked root raises `NotImplementedError`. -/
def run_item (w : World) (s : SessionState) (target : ConnData) :
    TargetItem → Except SSHError (String × Int) × SessionState
  | .cmd command hide_output break_on run_as_root =>
    if run_as_root then
      run_as_root_at_target w s command target.password hide_output break_on
    else
      run_at_target w s command hide_output break_on
  | .script script args from_file hide_output break_on run_as_root =>
    if run_as_root then
      run_bash_script_at_target_as_root w s script target.password args
        from_file hide_output break_on
    else
      (.error (.notImplementedError "run script as root for now"), s)
  | .invalid _ =>
    (.error (.runtimeError "unreachable: invalid items are rejected up front"), s)

/-- The command loop of `run_target` (the list comprehension): runs the
items in order, collecting `(output, exit_code)` pairs; the first raised
error aborts the rest. -/
def run_items (w : World) (target : ConnData) :
    List TargetItem → SessionState →
    Except SSHError (List (String × Int)) × SessionState
  | [], s => (.ok [], s)
  | item :: rest, s =>
    match run_item w s target item with
    | (.error e, s1) => (.error e, s1)
    | (.ok out, s1) =>
      match run_items w target rest s1 with
      | (.error e, s2) => (.error e, s2)
      | (.ok outs, s2) => (.ok (out :: outs), s2)

/-- Is this list item a recognized `TargetCommand`/`TargetBashScript`?
(`isinstance(cmd, (TargetCommand, TargetBashScript))`). -/
def recognizedItem : TargetItem → Bool
  | .invalid _ => false
  | _ => true

/-- The `try:` block of `SerialRecursiveSSHGroup.run_target`: connect the
nested hop, run every item, build the success result, then gracefully exit
the nested hop.  An error carries the value of the local variable
`target_outputs` at raise time: the list comprehension assigns it only on
full completion, so it is still `[]` unless the failure came from the
final `exit_target_session`. -/
def run_target_try (g : SerialRecursiveSSHGroup) (w : World) (s : SessionState)
    (target : ConnData) (commands : List TargetItem) (hide : Bool) :
    Except (SSHError × List (String × Int)) TargetExecutionResult × SessionState :=
  match group_connect g w s target hide with
  | (.error e, s1) => (.error (e, []), s1)
  | (.ok _, s1) =>
    match run_items w target commands s1 with
    | (.error e, s2) => (.error (e, []), s2)
    | (.ok target_outputs, s2) =>
      match exit_target_session w s2 hide with
      | (.error e, s3) => (.error (e, target_outputs), s3)
      | (.ok _, s3) => (.ok ⟨true, target_outputs, none⟩, s3)

/-- The `except` clauses of `run_target`: gateway-level errors re-raised;
`TargetSSHConnectionError` recorded with empty outputs; the other three
target-level kinds recorded with the `target_outputs` local; anything else
(not listed in the source) propagates. -/
def run_target_handle (e : SSHError) (touts : List (String × Int)) :
    Except SSHError TargetExecutionResult :=
  match e with
  | .gatewaySSHConnectionError _ => .error e
  | .gatewaySessionInactiveError _ => .error e
  | .targetSSHConnectionError _ => .ok ⟨false, [], some e⟩
  | .targetSessionInactiveError _ => .ok ⟨false, touts, some e⟩
  | .commandTimeoutError _ => .ok ⟨false, touts, some e⟩
  | .exitCodeNotFoundError => .ok ⟨false, touts, some e⟩
  | _ => .error e

/-- `SerialRecursiveSSHGroup.run_target`: up-front validation of every
item (fail fast with `InvalidTargetCommandError` before touching the
network), then the `try:` block and its handlers. -/
def run_target (g : SerialRecursiveSSHGroup) (w : World) (s : SessionState)
    (target : ConnData) (commands : List TargetItem) (hide : Bool) :
    Except SSHError TargetExecutionResult × SessionState :=
  if commands.all recognizedItem then
    match run_target_try g w s target commands hide with
    | (.ok r, s1) => (.ok r, s1)
    | (.error (e, touts), s1) => (run_target_handle e touts, s1)
  else
    (.error (.invalidTargetCommandError
      "run_target expected TargetCommand or TargetBashScript."), s)

/-- Python-dict insertion: overwrite in place if the key exists, else
append (`results[target.host] = out`). -/
def dictInsert (k : String) (v : TargetExecutionResult) :
    List (String × TargetExecutionResult) → List (String × TargetExecutionResult)
  | [] => [(k, v)]
  | (k', v') :: rest =>
    if k' = k then (k', v) :: rest else (k', v') :: dictInsert k v rest

/-- Lookup in the results dict. -/
def dictLookup (k : String) :
    List (String × TargetExecutionResult) → Option TargetExecutionResult
  | [] => none
  | (k', v) :: rest => if k' = k then some v else dictLookup k rest

/-- Does this result force `self.session.close()` in `run_all_targets`?
(`isinstance(out.error, (TargetSessionInactiveError, TargetSSHConnectionError))`). -/
def forcesReset : Option SSHError → Bool
  | some (.targetSessionInactiveError _) => true
  | some (.targetSSHConnectionError _) => true
  | _ => false

/-- The target loop of `run_all_targets`: `run_target` per target in input
order, recording the result under the target's host; after a result whose
error is a nested-session defect the shared session is force-closed so the
next target starts from a clean gateway reconnect.  A raised error (from
`run_target` or from the forced close) aborts the loop, discarding the
accumulated dict. -/
def run_all_targets_aux (g : SerialRecursiveSSHGroup) (w : World)
    (commands : List TargetItem) (hide : Bool) :
    List ConnData → SessionState → List (String × TargetExecutionResult) →
    Except SSHError (List (String × TargetExecutionResult) × SessionState)
  | [], s, results => .ok (results, s)
  | target :: rest, s, results =>
    match run_target g w s target commands hide with
    | (.error e, _) => .error e
    | (.ok out, s1) =>
      let results1 := dictInsert target.host out results
      if forcesReset out.error then
        match session_close w s1 with
        | (.error e, _) => .error e
        | (.ok _, s2) => run_all_targets_aux g w commands hide rest s2 results1
      else
        run_all_targets_aux g w commands hide rest s1 results1

/-- `SerialRecursiveSSHGroup.run_all_targets`. -/
def run_all_targets (g : SerialRecursiveSSHGroup) (w : World)
    (s : SessionState) (commands : List TargetItem) (hide : Bool) :
    Except SSHError (List (String × TargetExecutionResult) × SessionState) :=
  run_all_targets_aux g w commands hide g.targets s []

/-! ## Supporting lemmas about the marker search -/

/-- `stripPrefixChars` recognizes exactly the prefix decompositions. -/
theorem stripPrefixChars_append (d r : List Char) :
    stripPrefixChars d (d ++ r) = some r := by
  induction d with
  | nil => rfl
  | cons c cs ih => simp [stripPrefixChars, ih]

/-- `stripPrefixChars` succeeds only on prefix decompositions. -/
theorem stripPrefixChars_eq_some (d : List Char) :
    ∀ l r, stripPrefixChars d l = some r → l = d ++ r := by
  induction d with
  | nil =>
    intro l r h
    simp [stripPrefixChars] at h
    simp [h]
  | cons c cs ih =>
    intro l r h
    match l with
    | [] => simp [stripPrefixChars] at h
    | x :: xs =>
      simp only [stripPrefixChars] at h
      by_cases hx : x = c
      · subst hx
        simp at h
        simp [ih xs r h]
      · simp [hx] at h

/-- The head of a list fails `p`, or the list is empty. -/
def headFails (p : Char → Bool) : List Char → Bool
  | [] => true
  | c :: _ => !p c

theorem takeWhile_append_all (p : Char → Bool) (xs ys : List Char)
    (h : xs.all p = true) : (xs ++ ys).takeWhile p = xs ++ ys.takeWhile p := by
  induction xs with
  | nil => simp
  | cons c cs ih =>
    simp only [List.all_cons, Bool.and_eq_true] at h
    simp [List.takeWhile, h.1, ih h.2]

theorem takeWhile_eq_nil_of_headFails (p : Char → Bool) (ys : List Char)
    (h : headFails p ys = true) : ys.takeWhile p = [] := by
  cases ys with
  | nil => rfl
  | cons c cs =>
    simp [headFails] at h
    simp [List.takeWhile, h]

/-- `delim:(\d+)` matches right at a decomposition `delim ++ ':' ++ ds ++ post`
whose digit run `ds` is nonempty and maximal. -/
theorem markerCode_at_marker (d ds post : List Char)
    (hds : ds.all Char.isDigit = true) (hne : ds ≠ [])
    (hpost : headFails Char.isDigit post = true) :
    markerCode d (d ++ ':' :: (ds ++ post)) = some (digitsToNat ds) := by
  unfold markerCode
  rw [stripPrefixChars_append]
  simp only
  rw [takeWhile_append_all Char.isDigit ds post hds,
    takeWhile_eq_nil_of_headFails Char.isDigit post hpost]
  simp [List.isEmpty_iff, hne]

/-- When the marker matches at the head, the leftmost search stops there
with an empty clean prefix. -/
theorem extractExitCodeList_here (d l : List Char) (c : Nat)
    (h : markerCode d l = some c) :
    extractExitCodeList d l = some (c, []) := by
  cases l <;> simp [extractExitCodeList, h]

/-- The leftmost search on `pre ++ rest`: when no match starts inside
`pre` and `rest` starts with a match of code `c`, the search returns `c`
with clean output exactly `pre`. -/
theorem extractExitCodeList_append (d : List Char) (pre rest : List Char)
    (c : Nat)
    (hpre : ∀ k, k < pre.length → markerCode d (pre.drop k ++ rest) = none)
    (hrest : markerCode d rest = some c) :
    extractExitCodeList d (pre ++ rest) = some (c, pre) := by
  induction pre with
  | nil => simpa using extractExitCodeList_here d rest c hrest
  | cons p ps ih =>
    have h0 : markerCode d (p :: (ps ++ rest)) = none := by
      have := hpre 0 (by simp)
      simpa using this
    have hih : extractExitCodeList d (ps ++ rest) = some (c, ps) := by
      apply ih
      intro k hk
      have := hpre (k + 1) (by simpa using Nat.succ_lt_succ hk)
      simpa using this
    simp [extractExitCodeList, h0, hih]

/-- If the marker pattern occurs nowhere, the leftmost search fails. -/
theorem extractExitCodeList_eq_none (d : List Char) :
    ∀ l, hasMarker d l = false → extractExitCodeList d l = none := by
  intro l
  induction l with
  | nil =>
    intro h
    simp only [hasMarker] at h
    simp only [extractExitCodeList]
    cases hm : markerCode d [] with
    | none => rfl
    | some c => rw [hm] at h; simp at h
  | cons x xs ih =>
    intro h
    simp only [hasMarker, Bool.or_eq_false_iff] at h
    obtain ⟨h1, hrest⟩ := h
    have h2 := ih hrest
    simp only [extractExitCodeList]
    cases hm : markerCode d (x :: xs) with
    | none => simp [h2]
    | some c => rw [hm] at h1; simp at h1

/-- `markerCode` succeeds only on decompositions
`l = delim ++ ':' ++ (digit) ++ _`. -/
theorem markerCode_isSome_imp (d l : List Char)
    (h : (markerCode d l).isSome = true) :
    ∃ ch rest, l = d ++ ':' :: ch :: rest ∧ ch.isDigit = true := by
  unfold markerCode at h
  cases hs : stripPrefixChars d l with
  | none => rw [hs] at h; simp at h
  | some r =>
    rw [hs] at h
    have hl := stripPrefixChars_eq_some d l r hs
    cases r with
    | nil => simp at h
    | cons c r1 =>
      simp only at h
      by_cases hc : c = ':'
      · subst hc
        rw [if_pos rfl] at h
        cases r1 with
        | nil => simp [List.takeWhile, List.isEmpty] at h
        | cons ch rest =>
          by_cases hd : ch.isDigit
          · exact ⟨ch, rest, by rw [hl], hd⟩
          · rw [show (ch :: rest).takeWhile Char.isDigit = []
                from by simp [List.takeWhile, hd]] at h
            simp [List.isEmpty] at h
      · rw [if_neg hc] at h
        simp at h

/-- `hasMarker` finds an occurrence exactly when the text decomposes around
one: the delimiter, a colon, then at least one digit.  This ties the
boolean used in the no-marker claim to its intended reading. -/
theorem hasMarker_iff_exists (d : List Char) :
    ∀ l, hasMarker d l = true ↔
      ∃ pre ch rest, l = pre ++ d ++ ':' :: ch :: rest ∧ ch.isDigit = true := by
  intro l
  induction l with
  | nil =>
    simp only [hasMarker]
    constructor
    · intro h
      obtain ⟨ch, rest, hl, hd⟩ := markerCode_isSome_imp d [] h
      exact ⟨[], ch, rest, by simpa using hl, hd⟩
    · rintro ⟨pre, ch, rest, hl, hd⟩
      exact absurd hl.symm (by simp)
  | cons x xs ih =>
    simp only [hasMarker, Bool.or_eq_true]
    constructor
    · rintro (h | h)
      · obtain ⟨ch, rest, hl, hd⟩ := markerCode_isSome_imp d (x :: xs) h
        exact ⟨[], ch, rest, by simpa using hl, hd⟩
      · obtain ⟨pre, ch, rest, hl, hd⟩ := ih.mp h
        exact ⟨x :: pre, ch, rest, by simp [hl], hd⟩
    · rintro ⟨pre, ch, rest, hl, hd⟩
      cases pre with
      | nil =>
        left
        have hdec : x :: xs = d ++ ':' :: (ch :: rest) := by simpa using hl
        have hmk : markerCode d (x :: xs) =
            some (digitsToNat ((ch :: rest).takeWhile Char.isDigit)) := by
          unfold markerCode
          rw [hdec, stripPrefixChars_append]
          have hne : ((ch :: rest).takeWhile Char.isDigit).isEmpty = false := by
            simp [List.takeWhile, hd, List.isEmpty]
          simp [hne]
        simp [hmk]
      | cons p ps =>
        right
        apply ih.mpr
        refine ⟨ps, ch, rest, ?_, hd⟩
        simp only [List.cons_append, List.cons.injEq] at hl
        exact hl.2

set_option maxRecDepth 8192 in
/-- `Nat.repr` of a byte-range exit code is a nonempty all-digit string
that `digitsToNat` parses back (checked exhaustively for 0..255). -/
theorem repr_digits_roundtrip : ∀ c, c < 256 →
    ((Nat.repr c).toList.all Char.isDigit = true ∧
     digitsToNat (Nat.repr c).toList = c ∧ (Nat.repr c).toList ≠ []) := by
  decide

theorem String.mk_toList (s : String) : String.mk s.toList = s := rfl

theorem String.toList_append_eq (s t : String) :
    (s ++ t).toList = s.toList ++ t.toList := by
  simp [String.toList]

/-! ## Claims about the formatter (C3, C6, C8) -/

/-- C3, counterexample: the claim quantifies over *any* output containing
the marker `D:c`.  The output below contains the marker `__EXITCODE:7`,
yet decoding yields 3, because `re.search` commits to the leftmost
occurrence of the marker pattern. -/
theorem claim_C3_counterexample :
    containsSubStr ("__EXITCODE:" ++ Nat.repr 7) "__EXITCODE:3 tail __EXITCODE:7" = true ∧
    extract_exit_code "__EXITCODE:3 tail __EXITCODE:7" "__EXITCODE" = .ok (3, "") ∧
    (3 : Nat) ≠ 7 :=
  ⟨by decide, rfl, by decide⟩

/-- C3 (amended): for every valid exit-marker delimiter `D` and exit code
`c ≤ 255`, a command formatted with `D` carries the `; echo D:$?` marker
convention, and decoding any output whose *leftmost* marker occurrence is
`D:c` (no marker match starts before it, and the digit run is maximal)
yields exactly `c`, with the output truncated at the match. -/
theorem claim_C3_roundtrip (D cmdStr pre post : String) (c : Nat)
    (hD : validDelimiter D = true) (hc : c ≤ 255)
    (hpre : ∀ k, k < pre.toList.length →
      markerCode D.toList
        (pre.toList.drop k ++ (D.toList ++ ':' :: ((Nat.repr c).toList ++ post.toList))) = none)
    (hpost : headFails Char.isDigit post.toList = true) :
    regular_command cmdStr D false = pyStrip cmdStr ++ "; echo " ++ D ++ ":$?" ∧
    extract_exit_code (pre ++ D ++ ":" ++ Nat.repr c ++ post) D = .ok (c, pre) := by
  refine ⟨rfl, ?_⟩
  have hr := repr_digits_roundtrip c (by omega)
  have hmc : markerCode D.toList
      (D.toList ++ ':' :: ((Nat.repr c).toList ++ post.toList)) = some c := by
    have h1 := markerCode_at_marker D.toList (Nat.repr c).toList post.toList
      hr.1 hr.2.2 hpost
    rw [hr.2.1] at h1
    exact h1
  have hext := extractExitCodeList_append D.toList pre.toList
    (D.toList ++ ':' :: ((Nat.repr c).toList ++ post.toList)) c hpre hmc
  have hcolon : (":" : String).toList = [':'] := rfl
  have hsplit : (pre ++ D ++ ":" ++ Nat.repr c ++ post).toList =
      pre.toList ++ (D.toList ++ ':' :: ((Nat.repr c).toList ++ post.toList)) := by
    simp [String.toList_append_eq, hcolon]
  simp only [extract_exit_code]
  rw [hsplit, hext]
  simp [String.mk_toList]

/-- Witness for `claim_C3_roundtrip` at `D = "__EXITCODE"`, `c = 42`,
transcript `"out\n__EXITCODE:42\n$ "`. -/
theorem claim_C3_roundtrip_witness :
    regular_command "ls" "__EXITCODE" false =
      pyStrip "ls" ++ "; echo " ++ "__EXITCODE" ++ ":$?" ∧
    extract_exit_code ("out\n" ++ "__EXITCODE" ++ ":" ++ Nat.repr 42 ++ "\n$ ")
      "__EXITCODE" = .ok (42, "out\n") :=
  claim_C3_roundtrip "__EXITCODE" "ls" "out\n" "\n$ " 42 (by decide) (by decide)
    (by decide) (by decide)

/-- C6: when `delimiter:(digits)` occurs nowhere in the output,
`extract_exit_code` fails with `ExitCodeNotFoundError` and never returns a
fabricated exit code.  (`hasMarkerStr` is exactly occurrence of the marker
pattern: see `hasMarker_iff_exists`.) -/
theorem claim_C6_no_marker_fails (output delim : String)
    (h : hasMarkerStr delim output = false) :
    extract_exit_code output delim = .error .exitCodeNotFoundError := by
  unfold hasMarkerStr at h
  unfold extract_exit_code
  rw [extractExitCodeList_eq_none delim.toList output.toList h]

/-- Witness for `claim_C6_no_marker_fails`: a transcript that never shows
the `__EXITCODE` marker decodes to the error, not to a number. -/
theorem claim_C6_witness :
    extract_exit_code "backup interrupted before completion\n$ " "__EXITCODE" =
      .error .exitCodeNotFoundError :=
  claim_C6_no_marker_fails "backup interrupted before completion\n$ " "__EXITCODE"
    (by decide)

/-- C8: formatting `ls /tmp` with delimiter `__EXITCODE`, root off, appends
exactly `; echo __EXITCODE:$?`, and decoding the simulated output
`"file.txt\n__EXITCODE:0\n"` yields exit code 0 and cleaned output
`"file.txt\n"`. -/
theorem claim_C8_scenario :
    regular_command "ls /tmp" "__EXITCODE" false =
      "ls /tmp" ++ "; echo __EXITCODE:$?" ∧
    extract_exit_code "file.txt\n__EXITCODE:0\n" "__EXITCODE" =
      .ok (0, "file.txt\n") :=
  ⟨rfl, rfl⟩

/-! ## Claims about the `_run_raw` loop (C9, C10) -/

/-- C9: in each iteration of the `_run_raw` loop the exit-marker pattern is
tested before the optional early-break pattern: (1) whenever the last chunk
after this iteration's accumulation satisfies the marker pattern, the loop
exits through the marker branch — regardless of whether the break pattern
also matches; (2) the `breakTriggered` exit is reached only when the break
pattern matched while the exit marker had not; (3) a marker exit makes the
call return the decoded real exit code. -/
theorem claim_C9_marker_tested_first (env : RunEnv) (resp : List MResponder)
    (delim : String) (bp : Option (String → Bool)) (cmd : String) :
    (∀ fuel i j done cur,
      hasMarkerStr delim (iterAccum env resp i j done cur).2.2 = true →
      runLoop env resp delim bp cmd (fuel + 1) i j done cur =
        .ok ⟨(iterAccum env resp i j done cur).2.1,
             (iterAccum env resp i j done cur).2.2,
             (iterAccum env resp i j done cur).1, .markerFound⟩) ∧
    (∀ fuel i j done cur o,
      runLoop env resp delim bp cmd fuel i j done cur = .ok o →
      o.kind = .breakTriggered →
      hasMarkerStr delim o.cur = false ∧ breakMatches bp o.cur = true) ∧
    (∀ done cur fj c clean,
      extract_exit_code (joinedOutput env ⟨done, cur, fj, .markerFound⟩) delim =
        .ok (c, clean) →
      runFinish env delim ⟨done, cur, fj, .markerFound⟩ = .ok (clean, (c : Int))) := by
  refine ⟨?_, ?_, ?_⟩
  · intro fuel i j done cur h
    simp [runLoop, h]
  · intro fuel
    induction fuel with
    | zero =>
      intro i j done cur o h hk
      simp [runLoop] at h
    | succ n ih =>
      intro i j done cur o h hk
      simp only [runLoop] at h
      by_cases hm : hasMarkerStr delim (iterAccum env resp i j done cur).2.2 = true
      · rw [if_pos hm] at h
        have : o.kind = LoopExit.markerFound := by
          cases h
          rfl
        rw [this] at hk
        exact absurd hk (by simp)
      · rw [if_neg hm] at h
        by_cases hb : breakMatches bp (iterAccum env resp i j done cur).2.2 = true
        · rw [if_pos hb] at h
          cases h
          exact ⟨by simpa using hm, hb⟩
        · rw [if_neg hb] at h
          exact ih _ _ _ _ o h hk
  · intro done cur fj c clean h
    simp [runFinish, h]

/-- Witness environments for the two conjuncts of C9: a chunk satisfying
both patterns in the same iteration, and a chunk satisfying only the break
pattern. -/
def envBoth : RunEnv :=
  ⟨fun i => if i = 0 then some "PROMPT> __X:5 " else none, fun _ => none⟩

/-- A break-only run: the chunk matches the break pattern, not the marker. -/
def envBreakOnly : RunEnv :=
  ⟨fun i => if i = 0 then some "PROMPT> " else none, fun _ => none⟩

/-- The break pattern used by the C9 witness. -/
def bpPrompt : Option (String → Bool) :=
  some (fun s => containsSubStr "PROMPT>" s)

/-- Witness: with both patterns matched in the same iteration the loop
exits through the marker branch, and on a break-only exit the marker had
not matched while the break pattern had. -/
theorem claim_C9_witness :
    runLoop envBoth [] "__X" bpPrompt "c" 3 0 1 [] "" =
      .ok ⟨[], "PROMPT> __X:5 ", 1, .markerFound⟩ ∧
    (hasMarkerStr "__X" "PROMPT> " = false ∧
     breakMatches bpPrompt "PROMPT> " = true) := by
  constructor
  · exact (claim_C9_marker_tested_first envBoth [] "__X" bpPrompt "c").1
      2 0 1 [] "" (by decide)
  · exact (claim_C9_marker_tested_first envBreakOnly [] "__X" bpPrompt "c").2.1
      3 0 1 [] "" ⟨[], "PROMPT> ", 1, .breakTriggered⟩ rfl rfl

/-- C10: whenever `_run_raw` returns, its exit code is the marker-decoded
non-negative integer, or one of the negative sentinels `BREAK_TRIGGERED`
and `EXIT_CODE_NOT_FOUND`; it is never `UNSET`; the sentinels cannot
collide with a real process exit code; and `SSHConnection.run` delegates
to `_run_raw` on the `regular_command`-formatted command, so the same
holds for it. -/
theorem claim_C10_sentinels (env : RunEnv) (fc delim : String) (fuel : Nat)
    (resp : List MResponder) (bp : Option (String → Bool)) (chan : Bool)
    (out : String) (code : Int)
    (h : run_raw env fc delim fuel resp bp chan = .ok (out, code)) :
    (code = InternalExitCode.BREAK_TRIGGERED ∨
     code = InternalExitCode.EXIT_CODE_NOT_FOUND ∨
     (0 ≤ code ∧ ∃ full, extract_exit_code full delim = .ok (code.toNat, out))) ∧
    code ≠ InternalExitCode.UNSET ∧
    (∀ c : Int, 0 ≤ c ∧ c ≤ 255 →
      c ≠ InternalExitCode.BREAK_TRIGGERED ∧
      c ≠ InternalExitCode.EXIT_CODE_NOT_FOUND ∧ c ≠ InternalExitCode.UNSET) ∧
    (∀ command : String, conn_run env command delim fuel resp bp chan =
      run_raw env (regular_command command delim false) delim fuel resp bp chan) := by
  have hmain : code = InternalExitCode.BREAK_TRIGGERED ∨
      code = InternalExitCode.EXIT_CODE_NOT_FOUND ∨
      (0 ≤ code ∧ ∃ full, extract_exit_code full delim = .ok (code.toNat, out)) := by
    unfold run_raw at h
    cases chan with
    | false => simp at h
    | true =>
      rw [if_pos rfl] at h
      cases hloop : runLoop env resp delim bp fc fuel 0 1 [] "" with
      | error e => rw [hloop] at h; simp at h
      | ok o =>
        rw [hloop] at h
        replace h : runFinish env delim o = .ok (out, code) := h
        obtain ⟨dn, cr, fj, k⟩ := o
        cases k with
        | breakTriggered =>
          simp only [runFinish] at h
          simp only [Except.ok.injEq, Prod.mk.injEq] at h
          left
          exact h.2.symm
        | markerFound =>
          simp only [runFinish] at h
          cases hex : extract_exit_code (joinedOutput env ⟨dn, cr, fj, .markerFound⟩) delim with
          | error e =>
            rw [hex] at h
            simp only [Except.ok.injEq, Prod.mk.injEq] at h
            right; left
            exact h.2.symm
          | ok p =>
            rw [hex] at h
            obtain ⟨c, clean⟩ := p
            simp only [Except.ok.injEq, Prod.mk.injEq] at h
            right; right
            have hcode : code = (c : Int) := h.2.symm
            refine ⟨by omega, joinedOutput env ⟨dn, cr, fj, .markerFound⟩, ?_⟩
            have h1 : c = code.toNat := by omega
            have h2 : clean = out := h.1
            rw [← h1, ← h2]
            exact hex
  refine ⟨hmain, ?_, ?_, ?_⟩
  · rcases hmain with h1 | h1 | h1 <;>
      simp only [InternalExitCode.BREAK_TRIGGERED, InternalExitCode.EXIT_CODE_NOT_FOUND,
        InternalExitCode.UNSET] at * <;> omega
  · intro c hc
    simp only [InternalExitCode.BREAK_TRIGGERED, InternalExitCode.EXIT_CODE_NOT_FOUND,
      InternalExitCode.UNSET]
    omega
  · intro command
    rfl

/-- A concrete `_run_raw` run for C10: a single chunk carrying the marker. -/
def envC10 : RunEnv :=
  ⟨fun i => if i = 0 then some "__EXITCODE:0\n" else none, fun _ => none⟩

/-- Witness: the concrete run returns exit code 0, which the theorem then
certifies is marker-decoded and distinct from every sentinel. -/
theorem claim_C10_witness :
    (0 : Int) ≠ InternalExitCode.UNSET :=
  (claim_C10_sentinels envC10 "ls; echo __EXITCODE:$?" "__EXITCODE" 3 [] none
    true "" 0 rfl).2.1

/-! ## Supporting lemmas about token verification -/

/-- What one token probe computes, as a function of the oracle's answer. -/
theorem verify_env_variable_spec (w : World) (s : SessionState) (var : String)
    (hide : Bool) (msg : String) (res : Except SSHError (String × Int))
    (hchan : s.channelOpen = true)
    (hout : w.outcome s.events.length = res) :
    verify_env_variable w s var hide msg =
      ((match res with
        | .error e => .error e
        | .ok (output, _) =>
          if containsSubStr "exists: 0" output then .error (.runtimeError msg)
          else .ok ()), probeState s var) := by
  simp only [verify_env_variable, gw_run, gwRunPrim, hchan, if_true, hout,
    probeState, probeEvent]
  cases res with
  | error e => simp
  | ok p =>
    obtain ⟨output, cexit⟩ := p
    by_cases hc : containsSubStr "exists: 0" output <;> simp [hc]

/-- A failing gateway-token probe: `verify_gateway_session_token` raises
`GatewaySessionInactiveError`, never the `RuntimeError` the caller's dead
handler expects. -/
theorem verify_gateway_fail (w : World) (s : SessionState) (hide : Bool)
    (out : String) (c : Int)
    (hchan : s.channelOpen = true)
    (hout : w.outcome s.events.length = .ok (out, c))
    (hfail : containsSubStr "exists: 0" out = true) :
    verify_gateway_session_token w s hide =
      (.error (.gatewaySessionInactiveError GATEWAY_INACTIVE_MSG),
       probeState s GATEWAY_SESSION_VAR) := by
  unfold verify_gateway_session_token
  rw [verify_env_variable_spec w s GATEWAY_SESSION_VAR hide GATEWAY_INACTIVE_MSG
    (.ok (out, c)) hchan hout]
  simp [hfail]

/-- A succeeding gateway-token probe. -/
theorem verify_gateway_ok (w : World) (s : SessionState) (hide : Bool)
    (out : String) (c : Int)
    (hchan : s.channelOpen = true)
    (hout : w.outcome s.events.length = .ok (out, c))
    (hok : containsSubStr "exists: 0" out = false) :
    verify_gateway_session_token w s hide =
      (.ok (), probeState s GATEWAY_SESSION_VAR) := by
  unfold verify_gateway_session_token
  rw [verify_env_variable_spec w s GATEWAY_SESSION_VAR hide GATEWAY_INACTIVE_MSG
    (.ok (out, c)) hchan hout]
  simp [hok]

/-- A failing target-token probe raises `TargetSessionInactiveError`. -/
theorem verify_target_fail (w : World) (s : SessionState) (hide : Bool)
    (out : String) (c : Int)
    (hchan : s.channelOpen = true)
    (hout : w.outcome s.events.length = .ok (out, c))
    (hfail : containsSubStr "exists: 0" out = true) :
    verify_target_session_token w s hide =
      (.error (.targetSessionInactiveError TARGET_INACTIVE_MSG),
       probeState s TARGET_SESSION_VAR) := by
  unfold verify_target_session_token
  rw [verify_env_variable_spec w s TARGET_SESSION_VAR hide TARGET_INACTIVE_MSG
    (.ok (out, c)) hchan hout]
  simp [hfail]

/-- A succeeding target-token probe. -/
theorem verify_target_ok (w : World) (s : SessionState) (hide : Bool)
    (out : String) (c : Int)
    (hchan : s.channelOpen = true)
    (hout : w.outcome s.events.length = .ok (out, c))
    (hok : containsSubStr "exists: 0" out = false) :
    verify_target_session_token w s hide =
      (.ok (), probeState s TARGET_SESSION_VAR) := by
  unfold verify_target_session_token
  rw [verify_env_variable_spec w s TARGET_SESSION_VAR hide TARGET_INACTIVE_MSG
    (.ok (out, c)) hchan hout]
  simp [hok]

/-- A token probe leaves the state unchanged or appends exactly the probe
event, whatever the oracle answers. -/
theorem verify_env_variable_events (w : World) (s : SessionState)
    (var : String) (hide : Bool) (msg : String) :
    (verify_env_variable w s var hide msg).2 = s ∨
    (verify_env_variable w s var hide msg).2 = probeState s var := by
  by_cases hchan : s.channelOpen = true
  · right
    unfold verify_env_variable gw_run gwRunPrim
    simp only [hchan, if_true]
    cases hres : w.outcome s.events.length with
    | error e => simp [hres, probeState, probeEvent, hchan]
    | ok p => obtain ⟨o, c⟩ := p; by_cases hc : containsSubStr "exists: 0" o <;>
        simp [hres, hc, probeState, probeEvent, hchan]
  · left
    have hc : s.channelOpen = false := by simpa using hchan
    unfold verify_env_variable gw_run gwRunPrim
    simp [hc]

/-- `verify_target_session_token` only relabels the probe's error; its
state is the probe's state. -/
theorem verify_target_session_token_state (w : World) (s : SessionState)
    (hide : Bool) :
    (verify_target_session_token w s hide).2 =
    (verify_env_variable w s TARGET_SESSION_VAR hide TARGET_INACTIVE_MSG).2 := by
  unfold verify_target_session_token
  rcases hv : verify_env_variable w s TARGET_SESSION_VAR hide TARGET_INACTIVE_MSG
    with ⟨res, s1⟩
  cases res with
  | ok u => rfl
  | error e => cases e <;> rfl

/-! ## Claims about the recursive session (C1, C4, C5) -/

/-- C1 (evaluated at the failing input): when the gateway token probe
cannot be confirmed (`exists: 0` in its output), the session raises
`GatewaySessionInactiveError` — not the `TargetSSHConnectionError` the
claim and the source's own (dead) `except RuntimeError` handler intend —
and the only event issued is the token probe itself, which is not a nested
`ssh` command: the nested hop is never attempted. -/
theorem claim_C1_token_failure_behaviour (w : World) (s : SessionState)
    (prompt : String) (verbose : Bool) (out : String) (c : Int)
    (hchan : s.channelOpen = true)
    (hout : w.outcome s.events.length = .ok (out, c))
    (hfail : containsSubStr "exists: 0" out = true) :
    establish_target_host_connection w s prompt verbose =
      (.error (.gatewaySessionInactiveError GATEWAY_INACTIVE_MSG),
       probeState s GATEWAY_SESSION_VAR) ∧
    (probeState s GATEWAY_SESSION_VAR).events =
      s.events ++ [probeEvent GATEWAY_SESSION_VAR] ∧
    containsSubStr "ssh "
      (regular_command ("echo exists: $?" ++ GATEWAY_SESSION_VAR) "__EXITCODE" false)
      = false := by
  refine ⟨?_, rfl, by decide⟩
  unfold establish_target_host_connection
  rw [verify_gateway_fail w s (!verbose) out c hchan hout hfail]

/-- The world whose gateway shell always reports the session variable as
unset. -/
def wTokenFail : World := ⟨fun _ => .ok ("exists: 0", 0), fun _ => none⟩

/-- A session with a live channel aimed at target `h2`. -/
def sGateOpen : SessionState := ⟨true, ⟨"h2", "admin", "pw2"⟩, []⟩

/-- Witness: the concrete failing input for C1. -/
theorem claim_C1_witness :
    establish_target_host_connection wTokenFail sGateOpen "T>" false =
      (.error (.gatewaySessionInactiveError GATEWAY_INACTIVE_MSG),
       probeState sGateOpen GATEWAY_SESSION_VAR) :=
  (claim_C1_token_failure_behaviour wTokenFail sGateOpen "T>" false
    "exists: 0" 0 rfl rfl (by decide)).1

/-- C4: when the gateway token verifies but the nested `ssh` run completes
with any exit code other than the `BREAK_TRIGGERED` sentinel (a real exit
code such as 5, or the echoed marker decoded), `establish_target_host_connection`
raises `TargetSSHConnectionError` carrying the captured output and exit
code — never a false success. -/
theorem claim_C4_no_false_success (w : World) (s : SessionState)
    (prompt : String) (verbose : Bool) (out1 out2 : String) (c1 c2 : Int)
    (hchan : s.channelOpen = true)
    (h1 : w.outcome s.events.length = .ok (out1, c1))
    (hver : containsSubStr "exists: 0" out1 = false)
    (h2 : w.outcome (s.events.length + 1) = .ok (out2, c2))
    (hneq : c2 ≠ InternalExitCode.BREAK_TRIGGERED) :
    establish_target_host_connection w s prompt verbose =
      (.error (.targetSSHConnectionError (targetConnectFailMsg c2 out2)),
       { s with events := s.events ++ [probeEvent GATEWAY_SESSION_VAR,
          GwEvent.run (regular_command
              ("ssh " ++ s.targetData.user ++ "@" ++ s.targetData.host)
              SSH_TARGET_CONNECTION_EXITCODE false)
            SSH_TARGET_CONNECTION_EXITCODE (some prompt)] }) := by
  unfold establish_target_host_connection
  rw [verify_gateway_ok w s (!verbose) out1 c1 hchan h1 hver]
  have hchan1 : (probeState s GATEWAY_SESSION_VAR).channelOpen = true := by
    simpa [probeState] using hchan
  have hlen : (probeState s GATEWAY_SESSION_VAR).events.length =
      s.events.length + 1 := by
    simp [probeState]
  simp only [gw_run, gwRunPrim, hchan1, if_true, hlen, h2]
  rw [if_pos hneq]
  simp [probeState, probeEvent, hchan]

/-- The world for the C4 witness: the token probe verifies, then the
nested `ssh` is rejected with real exit code 5. -/
def wAuthReject : World :=
  ⟨fun k => if k = 0 then .ok ("exists: 1", 0) else .ok ("Permission denied", 5),
   fun _ => none⟩

/-- Witness: authentication rejected at the target hop (exit 5) yields
`TargetSSHConnectionError` with the transcript attached. -/
theorem claim_C4_witness :
    establish_target_host_connection wAuthReject sGateOpen "T>" false =
      (.error (.targetSSHConnectionError
        (targetConnectFailMsg 5 "Permission denied")),
       { sGateOpen with events := sGateOpen.events ++
          [probeEvent GATEWAY_SESSION_VAR,
           GwEvent.run (regular_command
              ("ssh " ++ sGateOpen.targetData.user ++ "@" ++ sGateOpen.targetData.host)
              SSH_TARGET_CONNECTION_EXITCODE false)
            SSH_TARGET_CONNECTION_EXITCODE (some "T>")] }) :=
  claim_C4_no_false_success wAuthReject sGateOpen "T>" false
    "exists: 1" "Permission denied" 0 5 rfl rfl (by decide) rfl (by decide)

/-- C5: each of the three target-command runners verifies the target
session token first; when that verification raises, the runner re-raises
the same error from the same state, and the trace has grown by at most the
token probe — the target command is never sent over the channel. -/
theorem claim_C5_verify_precedes_send (w : World) (s : SessionState)
    (command password script : String) (args : List String)
    (from_file hide : Bool) (break_on : Option String) (e : SSHError)
    (s' : SessionState)
    (h : verify_target_session_token w s hide = (.error e, s')) :
    run_at_target w s command hide break_on = (.error e, s') ∧
    run_as_root_at_target w s command password hide break_on = (.error e, s') ∧
    run_bash_script_at_target_as_root w s script password args from_file hide
      break_on = (.error e, s') ∧
    (s'.events = s.events ∨
     s'.events = s.events ++ [probeEvent TARGET_SESSION_VAR]) := by
  refine ⟨?_, ?_, ?_, ?_⟩
  · unfold run_at_target
    rw [h]
  · unfold run_as_root_at_target
    rw [h]
  · unfold run_bash_script_at_target_as_root
    rw [h]
  · have hs := congrArg Prod.snd h
    simp only at hs
    rw [← hs, verify_target_session_token_state]
    rcases verify_env_variable_events w s TARGET_SESSION_VAR hide
      TARGET_INACTIVE_MSG with h1 | h1
    · left
      rw [h1]
    · right
      rw [h1]
      rfl

/-- Witness: with the target token unset, `run_at_target` fails with
`TargetSessionInactiveError` and the trace holds only the token probe. -/
theorem claim_C5_witness :
    run_at_target wTokenFail sGateOpen "ls" false none =
      (.error (.targetSessionInactiveError TARGET_INACTIVE_MSG),
       probeState sGateOpen TARGET_SESSION_VAR) :=
  (claim_C5_verify_precedes_send wTokenFail sGateOpen "ls" "pw" "s" [] false
    false none (.targetSessionInactiveError TARGET_INACTIVE_MSG)
    (probeState sGateOpen TARGET_SESSION_VAR) rfl).1

/-! ## Supporting lemmas about the group runner -/

/-- The two error kinds `run_target` re-raises untouched. -/
def isGatewayLevel : SSHError → Bool
  | .gatewaySSHConnectionError _ => true
  | .gatewaySessionInactiveError _ => true
  | _ => false

/-- Gateway-level errors pass through the handlers of `run_target`. -/
theorem run_target_handle_gateway (e : SSHError) (touts : List (String × Int))
    (hgw : isGatewayLevel e = true) :
    run_target_handle e touts = .error e := by
  cases e <;> simp [isGatewayLevel] at hgw ⊢ <;> rfl

/-- A handler that produces a result always marks it failed and records
the error. -/
theorem run_target_handle_ok (e : SSHError) (touts : List (String × Int))
    (r : TargetExecutionResult) (h : run_target_handle e touts = .ok r) :
    r.success = false ∧ r.error = some e := by
  cases e <;> simp [run_target_handle] at h <;> simp [← h]

/-- Unfolding the batch loop one target at a time: the error case. -/
theorem run_all_targets_aux_cons_err (g : SerialRecursiveSSHGroup) (w : World)
    (commands : List TargetItem) (hide : Bool) (t : ConnData)
    (rest : List ConnData) (s s1 : SessionState)
    (acc : List (String × TargetExecutionResult)) (e : SSHError)
    (hrt : run_target g w s t commands hide = (.error e, s1)) :
    run_all_targets_aux g w commands hide (t :: rest) s acc = .error e := by
  simp only [run_all_targets_aux]
  rw [hrt]

/-- Unfolding the batch loop one target at a time: the result case. -/
theorem run_all_targets_aux_cons_ok (g : SerialRecursiveSSHGroup) (w : World)
    (commands : List TargetItem) (hide : Bool) (t : ConnData)
    (rest : List ConnData) (s s1 : SessionState)
    (acc : List (String × TargetExecutionResult)) (out : TargetExecutionResult)
    (hrt : run_target g w s t commands hide = (.ok out, s1)) :
    run_all_targets_aux g w commands hide (t :: rest) s acc =
      (if forcesReset out.error = true then
        match session_close w s1 with
        | (.error e, _) => .error e
        | (.ok _, s2) =>
          run_all_targets_aux g w commands hide rest s2 (dictInsert t.host out acc)
      else
        run_all_targets_aux g w commands hide rest s1 (dictInsert t.host out acc)) := by
  simp only [run_all_targets_aux]
  rw [hrt]

/-- Splicing the target loop at a list split. -/
theorem run_all_targets_aux_append (g : SerialRecursiveSSHGroup) (w : World)
    (commands : List TargetItem) (hide : Bool) (ts1 ts2 : List ConnData) :
    ∀ s acc, run_all_targets_aux g w commands hide (ts1 ++ ts2) s acc =
      match run_all_targets_aux g w commands hide ts1 s acc with
      | .error e => .error e
      | .ok (acc1, s1) => run_all_targets_aux g w commands hide ts2 s1 acc1 := by
  induction ts1 with
  | nil => intro s acc; simp [run_all_targets_aux]
  | cons t ts ih =>
    intro s acc
    rcases hrt : run_target g w s t commands hide with ⟨res, s1⟩
    cases res with
    | error e =>
      rw [List.cons_append, run_all_targets_aux_cons_err g w commands hide t
        (ts ++ ts2) s s1 acc e hrt, run_all_targets_aux_cons_err g w commands
        hide t ts s s1 acc e hrt]
    | ok out =>
      rw [List.cons_append,
        run_all_targets_aux_cons_ok g w commands hide t (ts ++ ts2) s s1 acc out hrt,
        run_all_targets_aux_cons_ok g w commands hide t ts s s1 acc out hrt]
      by_cases hfr : forcesReset out.error = true
      · rw [if_pos hfr, if_pos hfr]
        rcases hcl : session_close w s1 with ⟨r2, s2⟩
        cases r2 with
        | error e2 => simp
        | ok u => simp [ih]
      · rw [if_neg hfr, if_neg hfr]
        exact ih s1 (dictInsert t.host out acc)

/-- Inserting a fresh key appends the binding at the end. -/
theorem dictInsert_fresh (k : String) (v : TargetExecutionResult) :
    ∀ acc, k ∉ acc.map Prod.fst → dictInsert k v acc = acc ++ [(k, v)] := by
  intro acc
  induction acc with
  | nil => intro h; rfl
  | cons p rest ih =>
    intro h
    simp only [List.map_cons, List.mem_cons] at h
    push_neg at h
    simp only [dictInsert]
    rw [if_neg (by exact fun hc => h.1 hc.symm)]
    rw [ih h.2]
    rfl

/-- Looking up the key just inserted. -/
theorem dictLookup_dictInsert_self (k : String) (v : TargetExecutionResult) :
    ∀ acc, dictLookup k (dictInsert k v acc) = some v := by
  intro acc
  induction acc with
  | nil => simp [dictInsert, dictLookup]
  | cons p rest ih =>
    obtain ⟨k1, v1⟩ := p
    simp only [dictInsert]
    by_cases hk : k1 = k
    · simp [dictLookup, hk]
    · simp [dictLookup, hk, ih]

/-- Looking up another key passes the insertion by. -/
theorem dictLookup_dictInsert_other (k k1 : String) (v : TargetExecutionResult)
    (hne : k ≠ k1) :
    ∀ acc, dictLookup k (dictInsert k1 v acc) = dictLookup k acc := by
  have hne1 : ¬ (k1 = k) := fun h => hne h.symm
  intro acc
  induction acc with
  | nil => simp [dictInsert, dictLookup, hne1]
  | cons p rest ih =>
    obtain ⟨k0, v0⟩ := p
    simp only [dictInsert]
    by_cases hk : k0 = k1
    · subst hk
      simp [dictLookup, hne1]
    · rw [if_neg hk]
      simp only [dictLookup]
      by_cases hk0 : k0 = k
      · simp [hk0]
      · simp [hk0, ih]

/-- The batch loop's result keys: the accumulator's keys followed by the
processed targets' hosts, in input order (given global key distinctness). -/
theorem run_all_targets_aux_keys (g : SerialRecursiveSSHGroup) (w : World)
    (commands : List TargetItem) (hide : Bool) :
    ∀ (ts : List ConnData) s acc res s',
      run_all_targets_aux g w commands hide ts s acc = .ok (res, s') →
      (acc.map Prod.fst ++ ts.map ConnData.host).Nodup →
      res.map Prod.fst = acc.map Prod.fst ++ ts.map ConnData.host := by
  intro ts
  induction ts with
  | nil =>
    intro s acc res s' h hnd
    simp only [run_all_targets_aux, Except.ok.injEq, Prod.mk.injEq] at h
    simp [← h.1]
  | cons t rest ih =>
    intro s acc res s' h hnd
    simp only [List.map_cons] at hnd
    rw [List.nodup_append] at hnd
    obtain ⟨hnd1, hnd2, hdisj⟩ := hnd
    have hfresh : t.host ∉ acc.map Prod.fst := fun hmem =>
      hdisj hmem (List.mem_cons_self t.host (rest.map ConnData.host))
    have hkeys : ∀ out : TargetExecutionResult,
        (dictInsert t.host out acc).map Prod.fst = acc.map Prod.fst ++ [t.host] := by
      intro out
      rw [dictInsert_fresh t.host out acc hfresh]
      simp
    have hnd2' : ∀ out : TargetExecutionResult,
        ((dictInsert t.host out acc).map Prod.fst ++ rest.map ConnData.host).Nodup := by
      intro out
      rw [hkeys out, List.append_assoc, List.singleton_append, List.nodup_append]
      exact ⟨hnd1, hnd2, hdisj⟩
    rcases hrt : run_target g w s t commands hide with ⟨rres, s1⟩
    cases rres with
    | error e =>
      rw [run_all_targets_aux_cons_err g w commands hide t rest s s1 acc e hrt] at h
      simp at h
    | ok out =>
      rw [run_all_targets_aux_cons_ok g w commands hide t rest s s1 acc out hrt] at h
      by_cases hfr : forcesReset out.error = true
      · rw [if_pos hfr] at h
        rcases hcl : session_close w s1 with ⟨r2, s2⟩
        rw [hcl] at h
        cases r2 with
        | error e2 =>
          have h2 : (Except.error e2 :
              Except SSHError (List (String × TargetExecutionResult) × SessionState)) =
              .ok (res, s') := h
          simp at h2
        | ok u =>
          have h2 : run_all_targets_aux g w commands hide rest s2
              (dictInsert t.host out acc) = .ok (res, s') := h
          rw [ih s2 (dictInsert t.host out acc) res s' h2 (hnd2' out), hkeys out]
          simp
      · rw [if_neg hfr] at h
        rw [ih s1 (dictInsert t.host out acc) res s' h (hnd2' out), hkeys out]
        simp

/-- Processing further targets does not disturb the recorded result of a
host that is not among them. -/
theorem run_all_targets_aux_lookup (g : SerialRecursiveSSHGroup) (w : World)
    (commands : List TargetItem) (hide : Bool) (k : String) :
    ∀ (ts : List ConnData) s acc res s',
      run_all_targets_aux g w commands hide ts s acc = .ok (res, s') →
      k ∉ ts.map ConnData.host →
      dictLookup k res = dictLookup k acc := by
  intro ts
  induction ts with
  | nil =>
    intro s acc res s' h hk
    simp only [run_all_targets_aux, Except.ok.injEq, Prod.mk.injEq] at h
    simp [← h.1]
  | cons t rest ih =>
    intro s acc res s' h hk
    simp only [List.map_cons, List.mem_cons] at hk
    push_neg at hk
    rcases hrt : run_target g w s t commands hide with ⟨rres, s1⟩
    cases rres with
    | error e =>
      rw [run_all_targets_aux_cons_err g w commands hide t rest s s1 acc e hrt] at h
      simp at h
    | ok out =>
      rw [run_all_targets_aux_cons_ok g w commands hide t rest s s1 acc out hrt] at h
      have hstep : dictLookup k (dictInsert t.host out acc) = dictLookup k acc :=
        dictLookup_dictInsert_other k t.host out hk.1 acc
      by_cases hfr : forcesReset out.error = true
      · rw [if_pos hfr] at h
        rcases hcl : session_close w s1 with ⟨r2, s2⟩
        rw [hcl] at h
        cases r2 with
        | error e2 =>
          have h2 : (Except.error e2 :
              Except SSHError (List (String × TargetExecutionResult) × SessionState)) =
              .ok (res, s') := h
          simp at h2
        | ok u =>
          have h2 : run_all_targets_aux g w commands hide rest s2
              (dictInsert t.host out acc) = .ok (res, s') := h
          rw [ih s2 _ res s' h2 hk.2, hstep]
      · rw [if_neg hfr] at h
        rw [ih s1 _ res s' h hk.2, hstep]

/-! ## Claims about the group runner (C7, C2) -/

/-- C7: a gateway-level failure (`GatewaySSHConnectionError` or
`GatewaySessionInactiveError`) raised inside `run_target`'s try block is
re-raised by `run_target` and aborts `run_all_targets` at that target: the
batch returns the bare error — no result dict at all, hence no result for
any target after (or before) target k within this invocation. -/
theorem claim_C7_gateway_failure_aborts (g : SerialRecursiveSSHGroup)
    (w : World) (s s_k s_k1 : SessionState) (pre post : List ConnData)
    (tk : ConnData) (commands : List TargetItem) (hide : Bool)
    (res_pre : List (String × TargetExecutionResult)) (e : SSHError)
    (touts : List (String × Int))
    (htargets : g.targets = pre ++ tk :: post)
    (hvalid : commands.all recognizedItem = true)
    (hpre : run_all_targets_aux g w commands hide pre s [] = .ok (res_pre, s_k))
    (hbody : run_target_try g w s_k tk commands hide = (.error (e, touts), s_k1))
    (hgw : isGatewayLevel e = true) :
    run_target g w s_k tk commands hide = (.error e, s_k1) ∧
    run_all_targets g w s commands hide = .error e := by
  have hrt : run_target g w s_k tk commands hide = (.error e, s_k1) := by
    unfold run_target
    rw [if_pos hvalid, hbody]
    show (run_target_handle e touts, s_k1) = (.error e, s_k1)
    rw [run_target_handle_gateway e touts hgw]
  refine ⟨hrt, ?_⟩
  unfold run_all_targets
  rw [htargets, run_all_targets_aux_append g w commands hide pre (tk :: post) s [],
    hpre]
  exact run_all_targets_aux_cons_err g w commands hide tk post s_k s_k1 res_pre e hrt

/-- C2: in a batch over `pre ++ [tk] ++ post` with pairwise-distinct hosts,
when processing `tk` raises a target-level session defect (an error the
handlers of `run_target` turn into a failed result), and the forced
session reset (when one is triggered) and the remaining targets complete,
then `run_all_targets` still returns one result per target — keys exactly
the hosts in input order — and `tk`'s entry is that failed result. -/
theorem claim_C2_target_failure_isolated (g : SerialRecursiveSSHGroup)
    (w : World) (s s_k s_k1 s_k2 s' : SessionState)
    (pre post : List ConnData) (tk : ConnData) (commands : List TargetItem)
    (hide : Bool) (res_pre results : List (String × TargetExecutionResult))
    (e : SSHError) (touts : List (String × Int))
    (failRes : TargetExecutionResult)
    (htargets : g.targets = pre ++ tk :: post)
    (hvalid : commands.all recognizedItem = true)
    (hnodup : ((pre ++ tk :: post).map ConnData.host).Nodup)
    (hpre : run_all_targets_aux g w commands hide pre s [] = .ok (res_pre, s_k))
    (hbody : run_target_try g w s_k tk commands hide = (.error (e, touts), s_k1))
    (hres : run_target_handle e touts = .ok failRes)
    (hnext : (if forcesReset failRes.error = true then
                match session_close w s_k1 with
                | (.error e2, _) => Except.error e2
                | (.ok _, s2) => Except.ok s2
              else Except.ok s_k1) = Except.ok s_k2)
    (hrest : run_all_targets_aux g w commands hide post s_k2
      (dictInsert tk.host failRes res_pre) = .ok (results, s')) :
    run_all_targets g w s commands hide = .ok (results, s') ∧
    results.map Prod.fst = (pre ++ tk :: post).map ConnData.host ∧
    dictLookup tk.host results = some failRes ∧
    failRes.success = false := by
  have hrt : run_target g w s_k tk commands hide = (.ok failRes, s_k1) := by
    unfold run_target
    rw [if_pos hvalid, hbody]
    show (run_target_handle e touts, s_k1) = (.ok failRes, s_k1)
    rw [hres]
  have hnodup' : (pre.map ConnData.host ++ tk.host :: post.map ConnData.host).Nodup := by
    simpa using hnodup
  rw [List.nodup_append] at hnodup'
  obtain ⟨hndpre, hndcons, hdisj⟩ := hnodup'
  have htk_pre : tk.host ∉ pre.map ConnData.host := fun hm =>
    hdisj hm (List.mem_cons_self _ _)
  have htk_post : tk.host ∉ post.map ConnData.host := by
    rw [List.nodup_cons] at hndcons
    exact hndcons.1
  have hndpost : (post.map ConnData.host).Nodup := by
    rw [List.nodup_cons] at hndcons
    exact hndcons.2
  have hkeys_pre : res_pre.map Prod.fst = pre.map ConnData.host := by
    have := run_all_targets_aux_keys g w commands hide pre s [] res_pre s_k hpre
      (by simpa using hndpre)
    simpa using this
  have hfresh : tk.host ∉ res_pre.map Prod.fst := by
    rw [hkeys_pre]
    exact htk_pre
  have hbatch : run_all_targets g w s commands hide = .ok (results, s') := by
    unfold run_all_targets
    rw [htargets, run_all_targets_aux_append g w commands hide pre (tk :: post) s [],
      hpre]
    show run_all_targets_aux g w commands hide (tk :: post) s_k res_pre =
      .ok (results, s')
    rw [run_all_targets_aux_cons_ok g w commands hide tk post s_k s_k1 res_pre
      failRes hrt]
    by_cases hfr : forcesReset failRes.error = true
    · rw [if_pos hfr]
      rw [if_pos hfr] at hnext
      rcases hcl : session_close w s_k1 with ⟨r2, s2⟩
      rw [hcl] at hnext
      cases r2 with
      | error e2 =>
        have h2 : (Except.error e2 : Except SSHError SessionState) =
            Except.ok s_k2 := hnext
        simp at h2
      | ok u =>
        have h2 : (Except.ok s2 : Except SSHError SessionState) =
            Except.ok s_k2 := hnext
        have h3 : s2 = s_k2 := by simpa using h2
        show run_all_targets_aux g w commands hide post s2
          (dictInsert tk.host failRes res_pre) = .ok (results, s')
        rw [h3]
        exact hrest
    · rw [if_neg hfr]
      rw [if_neg hfr] at hnext
      have h3 : s_k1 = s_k2 := by simpa using hnext
      rw [h3]
      exact hrest
  have hacc : (dictInsert tk.host failRes res_pre).map Prod.fst =
      pre.map ConnData.host ++ [tk.host] := by
    rw [dictInsert_fresh tk.host failRes res_pre hfresh]
    simp [hkeys_pre]
  have hkeys : results.map Prod.fst = (pre ++ tk :: post).map ConnData.host := by
    have := run_all_targets_aux_keys g w commands hide post s_k2 _ results s' hrest
      (by
        rw [hacc, List.append_assoc, List.singleton_append, List.nodup_append]
        refine ⟨hndpre, ?_, hdisj⟩
        rw [List.nodup_cons]
        exact ⟨htk_post, hndpost⟩)
    rw [this, hacc]
    simp
  have hlook : dictLookup tk.host results = some failRes := by
    have := run_all_targets_aux_lookup g w commands hide tk.host post s_k2 _
      results s' hrest htk_post
    rw [this, dictLookup_dictInsert_self]
  exact ⟨hbatch, hkeys, hlook, (run_target_handle_ok e touts failRes hres).1⟩

/-! ## Concrete batch scenario used by the C2 and C7 witnesses -/

/-- Trace event: setting the gateway session token. -/
def setenvGatewayEvent : GwEvent :=
  GwEvent.run (regular_command
    (set_shell_env_variable_raw_command GATEWAY_SESSION_VAR SESSION_VAR_VALUE)
    "__EXITCODE" false) "__EXITCODE" none

/-- Trace event: setting the target session token. -/
def setenvTargetEvent : GwEvent :=
  GwEvent.run (regular_command
    (set_shell_env_variable_raw_command TARGET_SESSION_VAR SESSION_VAR_VALUE)
    TARGET_SESSION_EXITCODE_DELIMITER false) TARGET_SESSION_EXITCODE_DELIMITER none

/-- Trace event: the nested `ssh` hop command for a target. -/
def sshHopEvent (t : ConnData) (prompt : String) : GwEvent :=
  GwEvent.run (regular_command ("ssh " ++ t.user ++ "@" ++ t.host)
    SSH_TARGET_CONNECTION_EXITCODE false) SSH_TARGET_CONNECTION_EXITCODE (some prompt)

/-- Trace event: the graceful `exit` from the nested shell. -/
def exitCmdEvent : GwEvent :=
  GwEvent.run (regular_command "exit" TARGET_SESSION_EXITCODE_DELIMITER false)
    TARGET_SESSION_EXITCODE_DELIMITER none

/-- The trace of one fully successful target visit starting from a closed
channel: connect, token set and probes, nested hop, and graceful exit. -/
def fullHopEvents (t : ConnData) (prompt : String) : List GwEvent :=
  [GwEvent.connect, setenvGatewayEvent, probeEvent GATEWAY_SESSION_VAR,
   probeEvent GATEWAY_SESSION_VAR, sshHopEvent t prompt, setenvTargetEvent,
   probeEvent TARGET_SESSION_VAR, probeEvent TARGET_SESSION_VAR, exitCmdEvent,
   probeEvent GATEWAY_SESSION_VAR]

/-- Witness targets and initial state. -/
def wt1 : ConnData := ⟨"h1", "admin", "pw1"⟩

/-- Second witness target: its nested hop is rejected. -/
def wt2 : ConnData := ⟨"h2", "admin", "pw2"⟩

/-- Third witness target. -/
def wt3 : ConnData := ⟨"h3", "admin", "pw3"⟩

/-- Initial session: closed channel, empty trace. -/
def wS0 : SessionState := ⟨false, ⟨"", "", ""⟩, []⟩

/-- The batch world: every probe verifies, both hop attempts of targets 1
and 3 reach the nested prompt (break sentinel), but target 2's `ssh` is
rejected with real exit code 5 and its target token is gone afterwards. -/
def wWorld : World := ⟨fun k =>
  if k = 4 ∨ k = 19 then .ok ("target-prompt", -2)
  else if k = 11 then .ok ("Permission denied", 5)
  else if k = 12 then .ok ("exists: 0", 0)
  else .ok ("exists: 1", 0), fun _ => none⟩

/-- The witness batch group over the three targets. -/
def wGroup : SerialRecursiveSSHGroup :=
  ⟨⟨"gw", "root", "gpw"⟩, [wt1, wt2, wt3], "GW>", "T>"⟩

/-- The successful per-target result (no commands in the batch). -/
def wOkRes : TargetExecutionResult := ⟨true, [], none⟩

/-- Target 2's nested-connection failure. -/
def wErr : SSHError := .targetSSHConnectionError (targetConnectFailMsg 5 "Permission denied")

/-- Target 2's failed result. -/
def wFailRes : TargetExecutionResult := ⟨false, [], some wErr⟩

/-- State after target 1 completes. -/
def wSk : SessionState := ⟨true, wt1, fullHopEvents wt1 "T>"⟩

/-- State after target 2's hop attempt fails. -/
def wSk1 : SessionState := ⟨true, wt2,
  fullHopEvents wt1 "T>" ++ [probeEvent GATEWAY_SESSION_VAR, sshHopEvent wt2 "T>"]⟩

/-- State after the forced session reset. -/
def wSk2 : SessionState := ⟨false, wt2,
  wSk1.events ++ [probeEvent TARGET_SESSION_VAR, probeEvent GATEWAY_SESSION_VAR,
    GwEvent.close]⟩

/-- Results after target 1. -/
def wResPre : List (String × TargetExecutionResult) := [("h1", wOkRes)]

/-- The full batch results: three entries, in input order, `h2` failed. -/
def wResults : List (String × TargetExecutionResult) :=
  [("h1", wOkRes), ("h2", wFailRes), ("h3", wOkRes)]

/-- Final state after target 3's clean reconnect. -/
def wSFinal : SessionState := ⟨true, wt3, wSk2.events ++ fullHopEvents wt3 "T>"⟩

/-- Witness for C2: target 2 of 3 suffers a nested-connection failure, yet
the batch completes with exactly three results in input order and `h2`
recorded as failed. -/
theorem claim_C2_witness :
    run_all_targets wGroup wWorld wS0 [] false = .ok (wResults, wSFinal) ∧
    wResults.map Prod.fst = ([wt1] ++ wt2 :: [wt3]).map ConnData.host ∧
    dictLookup wt2.host wResults = some wFailRes ∧
    wFailRes.success = false :=
  claim_C2_target_failure_isolated wGroup wWorld wS0 wSk wSk1 wSk2 wSFinal
    [wt1] [wt3] wt2 [] false wResPre wResults wErr [] wFailRes
    rfl rfl (by decide) rfl rfl rfl rfl rfl

/-- The world whose gateway transport connect always fails. -/
def w7 : World := ⟨fun _ => .error (.commandTimeoutError "no route to host"), fun _ => none⟩

/-- A two-target batch for the C7 witness. -/
def g7 : SerialRecursiveSSHGroup := ⟨⟨"gw", "root", "gpw"⟩, [wt1, wt2], "GW>", "T>"⟩

/-- The wrapped gateway-level failure. -/
def w7Err : SSHError :=
  .gatewaySSHConnectionError "Error occurred while establishing gateway connection"

/-- State after the failed transport connect. -/
def w7Sk1 : SessionState := ⟨false, wt1, [GwEvent.connect]⟩

/-- Witness for C7: the gateway connect fails at the first target, the
error is re-raised by `run_target`, and the batch aborts with the bare
error — the second target is never reached and no result dict exists. -/
theorem claim_C7_witness :
    run_target g7 w7 wS0 wt1 [] false = (.error w7Err, w7Sk1) ∧
    run_all_targets g7 w7 wS0 [] false = .error w7Err :=
  claim_C7_gateway_failure_aborts g7 w7 wS0 wS0 w7Sk1 [] [wt2] wt1 [] false
    [] w7Err [] rfl rfl rfl rfl rfl
